import Mathlib

/-!
Shallow embedding of the `tarball` backend of the imgutil repository
(`src/tarball/tarball.go`), together with spec-modelled fragments of the
remote backend whose implementation is not part of the sources (only its
test file is), used by the rebase and layer-reuse claims.

Conventions of the embedding:
* Go byte slices are `List Nat`.
* `sha256.Sum256` and `json.Marshal` are external primitives (out of scope
  per the spec); they are abstracted as function fields of a serialization
  context `SerCtx`, universally quantified in the theorems and instantiated
  with concrete executable functions in witnesses.
* A `tar.Writer` is a list of entries written so far, passed explicitly.
* A Go method that can `panic` or return an `error` is modelled with the
  result type `GoCall`.
-/

namespace Imgutil

/-- Go byte slice. -/
abbrev Bytes : Type := List Nat

/-- Result of a Go call: normal return, error return, or a runtime panic. -/
inductive GoCall (α : Type) where
  | ok (val : α)
  | err (msg : String)
  | panics (msg : String)
deriving DecidableEq, Repr

/-- v1.Hash of go-containerregistry: algorithm plus lowercase hex digest. -/
structure Hash where
  algorithm : String
  hex : String
deriving DecidableEq, Repr

/-- v1.Descriptor: media type, digest and size of a blob. -/
structure Descriptor where
  mediaType : String
  digest : Hash
  size : Int
deriving DecidableEq, Repr

/-- types.OCIConfigJSON of go-containerregistry. -/
def OCIConfigJSON : String := "application/vnd.oci.image.config.v1+json"

/-- types.OCIManifestSchema1 of go-containerregistry. -/
def OCIManifestSchema1 : String := "application/vnd.oci.image.manifest.v1+json"

/-- Lowercase hex digit for a value below 16, as produced by fmt `%x`. -/
def hexDigit (n : Nat) : Char :=
  if n < 10 then Char.ofNat (48 + n) else Char.ofNat (87 + n)

/-- Two lowercase hex characters of one byte. -/
def hexByte (b : Nat) : String :=
  String.mk [hexDigit ((b / 16) % 16), hexDigit (b % 16)]

/-- fmt `%x` over a byte slice: lowercase hex, two characters per byte. -/
def hexStr (bs : Bytes) : String :=
  String.join (List.map hexByte bs)

/-- Header of one tar entry, with the fields the code sets: Name, Mode, Size. -/
structure TarHeader where
  name : String
  mode : Nat
  size : Int
deriving DecidableEq, Repr

/-- One tar entry: its header and the bytes written after it. -/
structure TarEntry where
  header : TarHeader
  content : Bytes
deriving DecidableEq, Repr

/-- Layer handle: per the spec the observations of a layer handle are stable,
so the handle is modelled by the values its getters return. -/
structure Layer where
  diffID : String
  digest : Hash
  size : Int
  mediaType : String
  compressed : Bytes
deriving DecidableEq, Repr

/-- The mutable part of an image config (`config` in the config file). -/
structure GoConfig where
  labels : List (String × String)
  env : List String
  entrypoint : List String
  cmd : List String
  workingDir : String
deriving DecidableEq, Repr

/-- Decoded image config file (the fields the claims touch). -/
structure ConfigFile where
  architecture : String
  os : String
  osVersion : String
  created : Int
  config : GoConfig
  diff_ids : List String
deriving DecidableEq, Repr

/-- Remote-backend image state: target name, previous-image reference,
working config and layer stack (lowest first). The remote backend's code is
not among the sources; this state is what its spec-modelled operations act
on and what the tarball backend reads through `baseImage`. -/
structure RemoteImage where
  name : String
  prevName : String
  config : ConfigFile
  layers : List Layer
deriving DecidableEq, Repr

/-- tarball.LayoutImplementation (a Go int). -/
abbrev LayoutImplementation : Type := Int

/-- First constant of the iota block. -/
def OCIImageLayout : LayoutImplementation := (0 : Int)

/-- Second constant of the iota block. -/
def DockerImageLayout : LayoutImplementation := (1 : Int)

/-- tarball.Image: a remote base image, the output path, and the layout flag. -/
structure Image where
  baseImage : RemoteImage
  tarballPath : String
  layoutImpl : LayoutImplementation
deriving DecidableEq

/-- v1.Manifest as the code builds it: schema version, config descriptor,
layer descriptors. -/
structure Manifest where
  schemaVersion : Nat
  config : Descriptor
  layers : List Descriptor
deriving DecidableEq, Repr

/-- v1.IndexManifest as the code builds it. -/
structure IndexManifest where
  schemaVersion : Nat
  manifests : List Descriptor
deriving DecidableEq, Repr

/-- Serialization context: the external primitives the tarball writer calls
(sha256.Sum256 and json.Marshal on each of the three document shapes). -/
structure SerCtx where
  sha256 : Bytes → Bytes
  marshalConfig : ConfigFile → Bytes
  marshalManifest : Manifest → Bytes
  marshalIndex : IndexManifest → Bytes

/-- Descriptor a layer contributes to the manifest, from its getters, as the
loop of writeManifestFileToTarball builds it. -/
def layerDescriptor (l : Layer) : Descriptor :=
  { mediaType := l.mediaType, size := l.size, digest := l.digest }

/-- Tar entry the loop of writeManifestFileToTarball writes for one layer:
name from the digest hex, mode 0644, the compressed bytes as content. -/
def layerEntry (l : Layer) : TarEntry :=
  { header := { name := "blobs/sha256/" ++ l.digest.hex, mode := 0o644, size := l.size },
    content := l.compressed }

/-- Image.writeConfigFileToTarball: marshal the base image's config file,
write it at blobs/sha256/<hex of its sha256> with mode 0644, and return the
config descriptor with media type OCIConfigJSON. -/
def writeConfigFileToTarball (ctx : SerCtx) (i : Image) (tw : List TarEntry) :
    List TarEntry × Descriptor :=
  let rawConfig := ctx.marshalConfig i.baseImage.config
  let configDigest := ctx.sha256 rawConfig
  (tw ++ [{ header := { name := "blobs/sha256/" ++ hexStr configDigest, mode := 0o644,
                        size := (List.length rawConfig : Int) },
            content := rawConfig }],
   { mediaType := OCIConfigJSON,
     digest := { algorithm := "sha256", hex := hexStr configDigest },
     size := (List.length rawConfig : Int) })

/-- Image.writeManifestFileToTarball: write each layer blob in stack order,
then marshal the manifest built from the config descriptor and the layer
descriptors, write it as a blob, and return the manifest descriptor. -/
def writeManifestFileToTarball (ctx : SerCtx) (i : Image) (configDescriptor : Descriptor)
    (tw : List TarEntry) : List TarEntry × Descriptor :=
  let layers := i.baseImage.layers
  let layerDescriptors := List.map layerDescriptor layers
  let tw := tw ++ List.map layerEntry layers
  let manifest : Manifest :=
    { schemaVersion := 2, config := configDescriptor, layers := layerDescriptors }
  let rawManifest := ctx.marshalManifest manifest
  let manifestDigest := ctx.sha256 rawManifest
  (tw ++ [{ header := { name := "blobs/sha256/" ++ hexStr manifestDigest, mode := 0o644,
                        size := (List.length rawManifest : Int) },
            content := rawManifest }],
   { mediaType := OCIManifestSchema1,
     digest := { algorithm := "sha256", hex := hexStr manifestDigest },
     size := (List.length rawManifest : Int) })

/-- Image.writeIndexFileToTarball: marshal the index manifest and write it
as index.json with mode 0644. -/
def writeIndexFileToTarball (ctx : SerCtx) (indexManifest : IndexManifest)
    (tw : List TarEntry) : List TarEntry :=
  let rawIndexManifest := ctx.marshalIndex indexManifest
  tw ++ [{ header := { name := "index.json", mode := 0o644,
                       size := (List.length rawIndexManifest : Int) },
           content := rawIndexManifest }]

/-- The entries the OCI branch of Save writes, in order: it runs
writeConfigFileToTarball, then writeManifestFileToTarball, then
writeIndexFileToTarball over an index holding the one manifest descriptor. -/
def ociEntries (ctx : SerCtx) (i : Image) : List TarEntry :=
  let step1 := writeConfigFileToTarball ctx i []
  let step2 := writeManifestFileToTarball ctx i step1.2 step1.1
  writeIndexFileToTarball ctx { schemaVersion := 2, manifests := [step2.2] } step2.1

/-- Observable output of Image.Save: the Docker branch delegates to
go-containerregistry's tarball.WriteToFile (external), the other branch
writes the OCI entry list. -/
inductive SaveOutput where
  | dockerDelegated
  | oci (entries : List TarEntry)
deriving DecidableEq

/-- Image.Save: branch on layoutImpl equalling DockerImageLayout; anything
else falls into the OCI else-branch. additionalNames is accepted and unused. -/
def Image.Save (ctx : SerCtx) (i : Image) (additionalNames : List String) : SaveOutput :=
  if i.layoutImpl = DockerImageLayout then SaveOutput.dockerDelegated
  else SaveOutput.oci (ociEntries ctx i)

/-- Names of the entries of a tarball, in writing order. -/
def entryNames (es : List TarEntry) : List String :=
  List.map (fun e => e.header.name) es

/-- Name of the config blob entry Save writes. -/
def configBlobName (ctx : SerCtx) (i : Image) : String :=
  "blobs/sha256/" ++ hexStr (ctx.sha256 (ctx.marshalConfig i.baseImage.config))

/-- Names of the layer blob entries Save writes, in stack order. -/
def layerBlobNames (i : Image) : List String :=
  List.map (fun l => "blobs/sha256/" ++ l.digest.hex) i.baseImage.layers

/-- The config descriptor Save builds. -/
def configDescriptorOf (ctx : SerCtx) (i : Image) : Descriptor :=
  (writeConfigFileToTarball ctx i []).2

/-- The manifest document Save marshals. -/
def manifestOf (ctx : SerCtx) (i : Image) : Manifest :=
  { schemaVersion := 2, config := configDescriptorOf ctx i,
    layers := List.map layerDescriptor i.baseImage.layers }

/-- Name of the manifest blob entry Save writes. -/
def manifestBlobName (ctx : SerCtx) (i : Image) : String :=
  "blobs/sha256/" ++ hexStr (ctx.sha256 (ctx.marshalManifest (manifestOf ctx i)))

/-- Entry-name order the spec sentence asserts: config blob, then manifest
blob, then layer blobs in stack order, then index.json. This definition
follows the spec's words, for comparison with the order the code produces. -/
def specClaimedNameOrder (ctx : SerCtx) (i : Image) : List String :=
  configBlobName ctx i :: manifestBlobName ctx i :: (layerBlobNames i ++ ["index.json"])

/-- Image.Rename of the tarball backend. -/
def Image.Rename (i : Image) (n : String) : GoCall Image :=
  GoCall.panics "not implemented"

/-- Image.Env of the tarball backend. -/
def Image.Env (i : Image) (key : String) : GoCall String :=
  GoCall.panics "not implemented"

/-- Image.SetEnv of the tarball backend. -/
def Image.SetEnv (i : Image) (key value : String) : GoCall Image :=
  GoCall.panics "not implemented"

/-- Image.SetEntrypoint of the tarball backend. -/
def Image.SetEntrypoint (i : Image) (ep : List String) : GoCall Image :=
  GoCall.panics "not implemented"

/-- Image.SetWorkingDir of the tarball backend. -/
def Image.SetWorkingDir (i : Image) (dir : String) : GoCall Image :=
  GoCall.panics "not implemented"

/-- Image.SetCmd of the tarball backend. -/
def Image.SetCmd (i : Image) (cmd : List String) : GoCall Image :=
  GoCall.panics "not implemented"

/-- Replace the value of the first pair with the given key, or append. -/
def setLabelList (ls : List (String × String)) (k v : String) : List (String × String) :=
  match ls with
  | [] => [(k, v)]
  | (a, b) :: t => if a = k then (k, v) :: t else (a, b) :: setLabelList t k v

/-- Modelled from the spec: remote.Image.SetLabel (the remote backend's code
is not among the sources). Per the spec it sets config.Labels[k] = v and,
being a local mutation, never fails. -/
def RemoteImage.SetLabel (r : RemoteImage) (k v : String) : GoCall RemoteImage :=
  GoCall.ok { r with config := { r.config with
    config := { r.config.config with labels := setLabelList r.config.config.labels k v } } }

/-- Image.SetLabel of the tarball backend: delegation to baseImage.SetLabel. -/
def Image.SetLabel (i : Image) (k v : String) : GoCall Image :=
  match RemoteImage.SetLabel i.baseImage k v with
  | GoCall.ok b => GoCall.ok { i with baseImage := b }
  | GoCall.err m => GoCall.err m
  | GoCall.panics m => GoCall.panics m

/-- Modelled from the spec: the layer stack a rebase produces for a match at
index k, the new base's layers then the original layers strictly above k. -/
def rebasedLayers (img newBase : RemoteImage) (k : Nat) : List Layer :=
  newBase.layers ++ List.drop (k + 1) img.layers

/-- Modelled from the spec: the image a rebase at index k produces, spliced
layers and diff_ids, os / architecture / os.version inherited from the new
base, everything else kept. -/
def rebasedImage (img newBase : RemoteImage) (k : Nat) : RemoteImage :=
  { img with
    config := { img.config with
      os := newBase.config.os
      architecture := newBase.config.architecture
      osVersion := newBase.config.osVersion
      diff_ids := newBase.config.diff_ids ++ List.drop (k + 1) img.config.diff_ids }
    layers := rebasedLayers img newBase k }

/-- Modelled from the spec: remote.Image.Rebase (the remote backend's code is
not among the sources). Locate the lowest index whose layer has the given
diffID, fail if absent, otherwise splice the new base under the layers
strictly above that index. -/
def RemoteImage.Rebase (img : RemoteImage) (oldTopLayerDiffID : String)
    (newBase : RemoteImage) : GoCall RemoteImage :=
  match List.findIdx? (fun l => l.diffID == oldTopLayerDiffID) img.layers with
  | none => GoCall.err "old top layer not in image"
  | some k => GoCall.ok (rebasedImage img newBase k)

/-- Modelled from the spec: the manifest layer list the registry save builds
for an image (step 4 of the registry save): the descriptors of the layers in
stack order. -/
def remoteManifestLayers (img : RemoteImage) : List Descriptor :=
  List.map layerDescriptor img.layers

/-- Modelled from the spec: remote.Image.ReuseLayer (the remote backend's
code is not among the sources). resolvePrev abstracts the registry lookup of
the previous image's layer stack; resolution failure and a missing diffID
produce the two documented error messages. -/
def RemoteImage.ReuseLayer (resolvePrev : String → Option (List Layer))
    (img : RemoteImage) (diffID : String) : GoCall RemoteImage :=
  match resolvePrev img.prevName with
  | none => GoCall.err
      ("failed to get layers for previous image with repo name '" ++ img.prevName ++ "'")
  | some prevLayers =>
    match List.find? (fun l => l.diffID == diffID) prevLayers with
    | none => GoCall.err
        ("previous image did not have layer with sha '" ++ diffID ++ "'")
    | some l => GoCall.ok { img with layers := img.layers ++ [l] }

/-!
Concrete fixtures used by counterexamples and witnesses. The serialization
context ctx0 uses executable stand-ins for sha256 and json.Marshal so that
the pipeline evaluates on concrete inputs.
-/

/-- Concrete serialization context for evaluation. -/
def ctx0 : SerCtx :=
  { sha256 := fun bs => [List.length bs % 256],
    marshalConfig := fun _ => [0],
    marshalManifest := fun _ => [1, 1],
    marshalIndex := fun _ => [2] }

/-- Concrete layer with a fixed digest and diffID. -/
def mkLayer (d hx : String) : Layer :=
  { diffID := d, digest := { algorithm := "sha256", hex := hx }, size := 1,
    mediaType := "application/vnd.oci.image.layer.v1.tar+gzip", compressed := [7] }

/-- Concrete config file. -/
def cfg0 : ConfigFile :=
  { architecture := "amd64", os := "linux", osVersion := "", created := 100,
    config := { labels := [("mykey", "myvalue")], env := ["PATH=/usr/bin"],
                entrypoint := [], cmd := [], workingDir := "" },
    diff_ids := ["sha256:d0"] }

/-- Concrete one-layer remote base image. -/
def base0 : RemoteImage :=
  { name := "img", prevName := "prev", config := cfg0, layers := [mkLayer "sha256:d0" "aa"] }

/-- Concrete one-layer tarball image in OCI layout. -/
def imgC1 : Image :=
  { baseImage := base0, tarballPath := "out.tar", layoutImpl := OCIImageLayout }

/-- Concrete tarball image used against the mutation operations. -/
def imgC3 : Image :=
  { baseImage := base0, tarballPath := "out.tar", layoutImpl := OCIImageLayout }

/-- Concrete tarball image holding the same layer twice. -/
def imgC8 : Image :=
  { baseImage := { name := "img", prevName := "", config := cfg0,
                   layers := [mkLayer "sha256:d0" "aa", mkLayer "sha256:d0" "aa"] },
    tarballPath := "out.tar", layoutImpl := OCIImageLayout }

/-- Concrete three-layer remote image for the rebase witness. -/
def img4 : RemoteImage :=
  { name := "img", prevName := "", config := cfg0,
    layers := [mkLayer "sha256:a" "a1", mkLayer "sha256:b" "b1", mkLayer "sha256:c" "c1"] }

/-- Concrete two-layer new base for the rebase witness. -/
def nb4 : RemoteImage :=
  { name := "newbase", prevName := "", config := cfg0,
    layers := [mkLayer "sha256:x" "x1", mkLayer "sha256:y" "y1"] }

/-- Concrete layer present in the previous image of the reuse witness. -/
def layer6 : Layer := mkLayer "sha256:l6" "bb"

/-- Concrete previous-image resolver: only prev-repo resolves. -/
def resolve6 : String → Option (List Layer) :=
  fun n => if n = "prev-repo" then some [layer6] else none

/-- Concrete remote image whose previous image resolves. -/
def img6 : RemoteImage :=
  { name := "img", prevName := "prev-repo", config := cfg0, layers := [] }

/-- Concrete remote image whose previous image does not resolve. -/
def img6bad : RemoteImage :=
  { name := "img", prevName := "some-bad-repo-name", config := cfg0, layers := [] }

/-!
Theorems. Shared structural lemmas first, then one theorem per claim with
counterexamples and witnesses where required.
-/

/-- Entry names the OCI branch of Save produces, in writing order: the config
blob, the layer blobs in stack order, the manifest blob, then index.json. -/
theorem entryNames_ociEntries (ctx : SerCtx) (i : Image) :
    entryNames (ociEntries ctx i) =
      configBlobName ctx i :: (layerBlobNames i ++ [manifestBlobName ctx i, "index.json"]) := by
  simp [entryNames, ociEntries, writeConfigFileToTarball, writeManifestFileToTarball,
    writeIndexFileToTarball, configBlobName, layerBlobNames, manifestBlobName,
    manifestOf, configDescriptorOf, layerEntry, List.map_append, List.map_map]

/-- A blob path never equals the oci-layout marker name: the lengths differ. -/
theorem blobName_ne_marker (s : String) : "blobs/sha256/" ++ s ≠ "oci-layout" := by
  intro h
  have hlen : ("blobs/sha256/" ++ s).length = ("oci-layout" : String).length := by rw [h]
  rw [String.length_append] at hlen
  have h13 : ("blobs/sha256/" : String).length = 13 := rfl
  have h10 : ("oci-layout" : String).length = 10 := rfl
  rw [h13, h10] at hlen
  omega

/-- C1 counterexample: for the concrete one-layer image imgC1, the OCI
tarball Save produces does not list its entries in the order the claim
states (config, manifest, layers, index.json); the layer blob precedes the
manifest blob. -/
theorem save_entry_order_counterexample :
    Image.Save ctx0 imgC1 [] = SaveOutput.oci (ociEntries ctx0 imgC1) ∧
    entryNames (ociEntries ctx0 imgC1) =
      ["blobs/sha256/01", "blobs/sha256/aa", "blobs/sha256/02", "index.json"] ∧
    specClaimedNameOrder ctx0 imgC1 =
      ["blobs/sha256/01", "blobs/sha256/02", "blobs/sha256/aa", "index.json"] ∧
    (entryNames (ociEntries ctx0 imgC1) == specClaimedNameOrder ctx0 imgC1) = false := by
  decide

/-- C1 amended: for every image saved through a non-Docker layout, the OCI
tarball's entries appear in the order config blob, layer blobs in stack
order, manifest blob, then index.json. -/
theorem save_entry_order (ctx : SerCtx) (i : Image) (ns : List String)
    (h : i.layoutImpl ≠ DockerImageLayout) :
    Image.Save ctx i ns = SaveOutput.oci (ociEntries ctx i) ∧
    entryNames (ociEntries ctx i) =
      configBlobName ctx i :: (layerBlobNames i ++ [manifestBlobName ctx i, "index.json"]) := by
  exact ⟨by simp [Image.Save, h], entryNames_ociEntries ctx i⟩

/-- C1 witness: the amended order theorem applied to the concrete image. -/
theorem save_entry_order_witness :
    Image.Save ctx0 imgC1 ["other-name"] = SaveOutput.oci (ociEntries ctx0 imgC1) ∧
    entryNames (ociEntries ctx0 imgC1) =
      configBlobName ctx0 imgC1 ::
        (layerBlobNames imgC1 ++ [manifestBlobName ctx0 imgC1, "index.json"]) :=
  save_entry_order ctx0 imgC1 ["other-name"] (by decide)

/-- C2: the config blob Save writes is the serialization of the base image's
config file unchanged, the created field included; Save never recomputes
created, so the saved created equals the prior created instead of strictly
exceeding it. -/
theorem save_config_created_unchanged (ctx : SerCtx) (i : Image) :
    Option.map TarEntry.content (List.head? (ociEntries ctx i)) =
      some (ctx.marshalConfig i.baseImage.config) := rfl

/-- C3 counterexample: on the concrete tarball image, SetEnv panics instead
of succeeding as a local mutation. -/
theorem tarball_setenv_panics :
    Image.SetEnv imgC3 "ENV_KEY" "ENV_VAL" = GoCall.panics "not implemented" := rfl

/-- C3 amended: on the tarball backend, SetLabel is a local mutation that
never fails, while SetEnv, SetEntrypoint, SetCmd, SetWorkingDir and Rename
panic with not implemented. -/
theorem tarball_mutations_behavior (i : Image) (k v : String) (args : List String)
    (dir n : String) :
    (∃ i2, Image.SetLabel i k v = GoCall.ok i2) ∧
    Image.SetEnv i k v = GoCall.panics "not implemented" ∧
    Image.SetEntrypoint i args = GoCall.panics "not implemented" ∧
    Image.SetCmd i args = GoCall.panics "not implemented" ∧
    Image.SetWorkingDir i dir = GoCall.panics "not implemented" ∧
    Image.Rename i n = GoCall.panics "not implemented" :=
  ⟨⟨_, rfl⟩, rfl, rfl, rfl, rfl, rfl⟩

/-- C4: when k is the lowest index whose layer carries the old top diffID,
Rebase succeeds and the resulting layer stack is the new base's layers
followed by the original layers strictly above k, and the manifest layer
list built at save equals the corresponding concatenation of descriptors. -/
theorem rebase_splices_layers (img newBase : RemoteImage) (oldTopLayerDiffID : String)
    (k : Nat)
    (hk : List.findIdx? (fun l => l.diffID == oldTopLayerDiffID) img.layers = some k) :
    RemoteImage.Rebase img oldTopLayerDiffID newBase = GoCall.ok (rebasedImage img newBase k) ∧
    (rebasedImage img newBase k).layers = newBase.layers ++ List.drop (k + 1) img.layers ∧
    remoteManifestLayers (rebasedImage img newBase k) =
      remoteManifestLayers newBase ++
        List.map layerDescriptor (List.drop (k + 1) img.layers) := by
  refine ⟨?_, rfl, ?_⟩
  · simp [RemoteImage.Rebase, hk]
  · simp [remoteManifestLayers, rebasedImage, rebasedLayers, List.map_append]

/-- C4 witness: the rebase theorem applied to a concrete three-layer image
whose middle layer is the old top, against a concrete two-layer new base. -/
theorem rebase_splices_layers_witness :
    List.findIdx? (fun l => l.diffID == "sha256:b") img4.layers = some 1 ∧
    (RemoteImage.Rebase img4 "sha256:b" nb4 = GoCall.ok (rebasedImage img4 nb4 1) ∧
     (rebasedImage img4 nb4 1).layers = nb4.layers ++ List.drop 2 img4.layers ∧
     remoteManifestLayers (rebasedImage img4 nb4 1) =
       remoteManifestLayers nb4 ++ List.map layerDescriptor (List.drop 2 img4.layers)) :=
  ⟨by decide, rebase_splices_layers img4 nb4 "sha256:b" 1 (by decide)⟩

/-- C5: no entry of the OCI tarball Save produces is named oci-layout: every
entry is either a blob under blobs/sha256/ or index.json, so the marker
file the claim asserts is never written. -/
theorem save_writes_no_oci_layout_marker (ctx : SerCtx) (i : Image) :
    List.count "oci-layout" (entryNames (ociEntries ctx i)) = 0 := by
  rw [List.count_eq_zero, entryNames_ociEntries]
  intro hmem
  rcases List.mem_cons.mp hmem with h | h
  · exact blobName_ne_marker _ h.symm
  rcases List.mem_append.mp h with h | h
  · rcases List.mem_map.mp h with ⟨l, _, hl⟩
    exact blobName_ne_marker _ hl
  rcases List.mem_cons.mp h with h | h
  · exact blobName_ne_marker _ h.symm
  · simp at h

/-- C7: the config descriptor Save builds carries the OCI config media type,
the sha256 of the marshaled config file bytes as digest, and the length of
those bytes as size, and the entry written for it holds exactly those
bytes under the matching blob path. -/
theorem config_descriptor_fields (ctx : SerCtx) (i : Image) (tw : List TarEntry) :
    (writeConfigFileToTarball ctx i tw).2.mediaType = OCIConfigJSON ∧
    (writeConfigFileToTarball ctx i tw).2.digest =
      { algorithm := "sha256",
        hex := hexStr (ctx.sha256 (ctx.marshalConfig i.baseImage.config)) } ∧
    (writeConfigFileToTarball ctx i tw).2.size =
      (List.length (ctx.marshalConfig i.baseImage.config) : Int) ∧
    (writeConfigFileToTarball ctx i tw).1 =
      tw ++ [{ header := { name := "blobs/sha256/" ++
                             hexStr (ctx.sha256 (ctx.marshalConfig i.baseImage.config)),
                           mode := 0o644,
                           size := (List.length (ctx.marshalConfig i.baseImage.config) : Int) },
               content := ctx.marshalConfig i.baseImage.config }] :=
  ⟨rfl, rfl, rfl, rfl⟩

/-- C6: with the previous image reference set, ReuseLayer reports exactly the
documented message when the previous image does not resolve, and exactly the
other documented message when it resolves but no layer carries the diffID. -/
theorem reuse_layer_error_messages (resolvePrev : String → Option (List Layer))
    (img : RemoteImage) (diffID : String) :
    (resolvePrev img.prevName = none →
      RemoteImage.ReuseLayer resolvePrev img diffID =
        GoCall.err ("failed to get layers for previous image with repo name '" ++
          img.prevName ++ "'")) ∧
    (∀ prevLayers, resolvePrev img.prevName = some prevLayers →
      (∀ l ∈ prevLayers, l.diffID ≠ diffID) →
      RemoteImage.ReuseLayer resolvePrev img diffID =
        GoCall.err ("previous image did not have layer with sha '" ++ diffID ++ "'")) := by
  constructor
  · intro h
    simp [RemoteImage.ReuseLayer, h]
  · intro ls hls hnone
    have hfind : List.find? (fun l => l.diffID == diffID) ls = none := by
      apply List.find?_eq_none.mpr
      intro x hx
      simpa using hnone x hx
    simp [RemoteImage.ReuseLayer, hls, hfind]

/-- C6 witness: both error shapes at concrete inputs — an unresolvable
previous reference, and a resolvable one lacking the requested diffID. -/
theorem reuse_layer_error_messages_witness :
    RemoteImage.ReuseLayer resolve6 img6bad "some-bad-sha" =
      GoCall.err "failed to get layers for previous image with repo name 'some-bad-repo-name'" ∧
    RemoteImage.ReuseLayer resolve6 img6 "some-bad-sha" =
      GoCall.err "previous image did not have layer with sha 'some-bad-sha'" :=
  ⟨(reuse_layer_error_messages resolve6 img6bad "some-bad-sha").1 (by decide),
   (reuse_layer_error_messages resolve6 img6 "some-bad-sha").2 [layer6] (by decide) (by decide)⟩

/-- C8 counterexample: the concrete image imgC8 holds the same layer twice;
Save writes two blob entries with the same path rather than one. -/
theorem duplicate_blob_paths_counterexample :
    imgC8.baseImage.layers = [mkLayer "sha256:d0" "aa", mkLayer "sha256:d0" "aa"] ∧
    List.count ("blobs/sha256/" ++ "aa") (entryNames (ociEntries ctx0 imgC8)) = 2 := by
  decide

/-- C8 amended: Save performs no de-duplication of blob paths: every layer
contributes its own blob entry, so any path occurs among the entry names at
least as often as among the per-layer blob names. -/
theorem save_layer_entries_not_deduplicated (ctx : SerCtx) (i : Image) (p : String) :
    List.count p (layerBlobNames i) ≤ List.count p (entryNames (ociEntries ctx i)) := by
  rw [entryNames_ociEntries]
  simp [List.count_cons, List.count_append]
  omega

/-- C9: any layout value other than DockerImageLayout, declared constant or
not, takes the else branch of Save and yields the OCI entry list, which does
not depend on the layout value; no rejection of unknown values exists. -/
theorem unknown_layout_falls_through_to_oci (b : RemoteImage) (path : String)
    (v : LayoutImplementation) (ctx : SerCtx) (ns : List String)
    (h : v ≠ DockerImageLayout) :
    Image.Save ctx { baseImage := b, tarballPath := path, layoutImpl := v } ns =
      SaveOutput.oci (ociEntries ctx { baseImage := b, tarballPath := path, layoutImpl := v }) ∧
    ociEntries ctx { baseImage := b, tarballPath := path, layoutImpl := v } =
      ociEntries ctx { baseImage := b, tarballPath := path, layoutImpl := OCIImageLayout } :=
  ⟨by simp [Image.Save, h], rfl⟩

/-- C9 witness: the fall-through theorem applied at the undeclared layout
value 42. -/
theorem unknown_layout_falls_through_to_oci_witness :
    Image.Save ctx0 { baseImage := base0, tarballPath := "out.tar", layoutImpl := 42 } [] =
      SaveOutput.oci
        (ociEntries ctx0 { baseImage := base0, tarballPath := "out.tar", layoutImpl := 42 }) ∧
    ociEntries ctx0 { baseImage := base0, tarballPath := "out.tar", layoutImpl := 42 } =
      ociEntries ctx0 { baseImage := base0, tarballPath := "out.tar",
                        layoutImpl := OCIImageLayout } :=
  unknown_layout_falls_through_to_oci base0 "out.tar" 42 ctx0 [] (by decide)

/-- C10: Save ignores its additionalNames argument entirely: the output for
any list of additional names equals the output for none. -/
theorem save_ignores_additional_names (ctx : SerCtx) (i : Image) (ns : List String) :
    Image.Save ctx i ns = Image.Save ctx i [] := rfl

end Imgutil

